import Mathlib

/-!
Shallow embedding of the cache-backed refresh coordinator of the
WKSnow weather dashboard and proofs about it.

The repository is a collection of serverless HTTP handlers that fetch
data from three upstreams (a Homey home-automation hub, the Hafjell
resort page, the YR.no forecast API), reshape the responses and cache
them in Redis.  We embed the cache store as a function from keys to
optional entries with an absolute expiry time, JavaScript values at the
modelled boundaries as an inductive `JsVal` (with numbers as exact
rationals), JSON-serialisable data as an inductive `Json`, and each
handler or adapter as a total Lean function.  Upstream I/O is
represented by an explicit outcome argument (success payload, HTTP
error status, thrown error message, timeout), so an adapter is a
function from its upstream outcome and the store to its result and the
updated store.  ISO-8601 timestamps are modelled by their millisecond
value; `JSON.stringify`/`JSON.parse` between a value and the store is
modelled as the identity on `Json` (it is a bijection on
JSON-serialisable data, with `NaN`/`undefined` handled explicitly where
they occur).
-/

/-- A JavaScript value as it appears at the boundaries we model:
`undef` is `undefined`, `null` is `null`, numbers are exact rationals,
strings are strings. -/
inductive JsVal where
  | undef
  | null
  | num (q : Rat)
  | str (s : String)
deriving DecidableEq, Repr

/-- JavaScript truthiness: `undefined`, `null`, `0` and `""` are falsy,
everything else we model is truthy. -/
def truthy : JsVal → Bool
  | .undef => false
  | .null => false
  | .num q => q != 0
  | .str s => s != ""

/-- JavaScript `a || b`. -/
def jsOr (a b : JsVal) : JsVal := if truthy a then a else b

/-- Value of a list of decimal digit characters. -/
def digitsToNat (l : List Char) : Nat :=
  l.foldl (fun a c => a * 10 + (c.toNat - 48)) 0

/-- Parse a decimal number from the front of a character list, as JS
`parseFloat` does on the strings this program feeds it: optional sign,
integer digits, optional fractional digits.  `none` models `NaN`. -/
def parseDecimalChars (cs : List Char) : Option Rat :=
  let signed := cs.head? = some '-'
  let cs1 := if cs.head? = some '-' ∨ cs.head? = some '+' then cs.tail else cs
  let intDigits := cs1.takeWhile Char.isDigit
  let rest := cs1.drop intDigits.length
  let fracDigits :=
    match rest with
    | '.' :: r => r.takeWhile Char.isDigit
    | _ => []
  if intDigits.isEmpty ∧ fracDigits.isEmpty then none
  else
    let ip : Rat := (digitsToNat intDigits : Nat)
    let fp : Rat := (digitsToNat fracDigits : Nat) / ((10 : Rat) ^ fracDigits.length)
    some (if signed then -(ip + fp) else ip + fp)

/-- JS `parseFloat`: numbers pass through, strings are parsed from the
front, everything else (and unparsable strings) is `NaN` (`none`). -/
def parseFloat : JsVal → Option Rat
  | .num q => some q
  | .str s => parseDecimalChars s.toList
  | _ => none

/-- Whole-string numeric value of a string, for JS `Number` coercion. -/
def numFull (s : String) : Option Rat :=
  if s = "" then some 0 else parseDecimalChars s.toList

/-- JS `Number(x)` coercion as used by `Math.round` call sites:
`undefined` is `NaN`, `null` is `0`, numbers pass through, strings are
converted whole (empty or blank is `0`). -/
def jsToNumber : JsVal → Option Rat
  | .undef => none
  | .null => some 0
  | .num q => some q
  | .str s => numFull s.trim

/-- JS `Math.round`: nearest integer, ties towards positive infinity. -/
def jsRound (q : Rat) : Int := Int.floor (q + 1 / 2)

/-- `Math.round(x)` at a JS value; a `NaN` result is modelled as the
`null` it becomes once `JSON.stringify`d into the cache. -/
def jsMathRound (v : JsVal) : JsVal :=
  match jsToNumber v with
  | some q => JsVal.num (jsRound q : Int)
  | none => JsVal.null

/-- JS `Number.prototype.toFixed(1)`: sign first, then the absolute
value rounded to one decimal (ties away from zero per the spec). -/
def toFixed1 (q : Rat) : String :=
  let n : Nat := (Int.floor (|q| * 10 + 1 / 2)).toNat
  (if q < 0 then "-" else "") ++ toString (n / 10) ++ "." ++ toString (n % 10)

/-- `parseFloat(x).toFixed(1)` with the `NaN` case spelled out. -/
def jsToFixed1 : Option Rat → String
  | some q => toFixed1 q
  | none => "NaN"

/-- A JSON-serialisable value. -/
inductive Json where
  | null
  | bool (b : Bool)
  | num (q : Rat)
  | str (s : String)
  | arr (elems : List Json)
  | obj (fields : List (String × Json))

/-- First field of a JSON object with the given key. -/
def objLookup (j : Json) (k : String) : Option Json :=
  match j with
  | .obj fs => (fs.find? (fun p => p.1 == k)).map (fun p => p.2)
  | _ => none

/-- JS object-spread-then-assign `{...fs, k: v}`: an existing key keeps
its position and gets the new value, a new key is appended. -/
def objSet (fs : List (String × Json)) (k : String) (v : Json) : List (String × Json) :=
  if fs.any (fun p => p.1 == k) then
    fs.map (fun p => if p.1 == k then (k, v) else p)
  else fs ++ [(k, v)]

/-- Fields of `{...j}`: spreading a non-object contributes nothing. -/
def jsSpread (j : Json) : List (String × Json) :=
  match j with
  | .obj fs => fs
  | _ => []

/-- JSON form of a JS value; `undefined` has none (`JSON.stringify`
drops such fields). -/
def jsonOfJsVal : JsVal → Option Json
  | .undef => none
  | .null => some Json.null
  | .num q => some (Json.num q)
  | .str s => some (Json.str s)

/-- One object field from a JS value, omitted when it is `undefined`. -/
def jsonField (k : String) (v : JsVal) : List (String × Json) :=
  match jsonOfJsVal v with
  | some j => [(k, j)]
  | none => []

/-- A Redis store holding JSON documents: each key maps to a value and
an absolute expiry time in milliseconds. -/
def JStore : Type := String → Option (Json × Nat)

def emptyJStore : JStore := fun _ => none

/-- `redis.setEx key ttlSeconds value` at time `now`. -/
def setExJ (st : JStore) (key : String) (ttlSeconds now : Nat) (v : Json) : JStore :=
  fun k => if k = key then some (v, now + ttlSeconds * 1000) else st k

/-- `redis.get key` at time `now`: expired entries read as absent. -/
def getJ (now : Nat) (st : JStore) (key : String) : Option Json :=
  match st key with
  | some (v, expiresAt) => if now < expiresAt then some v else none
  | none => none

namespace CachedData

/-!
Model of `src/api/cached-data.js`: the optimised-payload constructors,
the bounded temperature history, and the `action=get` /
`action=refresh` branches of the handler.  The cache here holds typed
optimised payloads; we store them as a `CacheVal` sum rather than
re-serialising to `Json`, since `JSON.stringify`/`JSON.parse` round the
trip faithfully.  Timestamps (`Date.now()`) are a `now : Nat` argument.
-/

/-- Raw Homey sensor payload as `fetchHomeyData` returns it (fields may
be `undefined` when the device lacks the capability). -/
structure HomeyRaw where
  temperature : JsVal
  humidity : JsVal
deriving DecidableEq, Repr

/-- One side (top/bottom) of the raw Hafjell payload. -/
structure SideRaw where
  temperature : JsVal
  condition : JsVal
  wind : JsVal
  snow : JsVal
  snowLastDay : JsVal
deriving DecidableEq, Repr

/-- Raw Hafjell payload; `top`/`bottom` reached via optional chaining. -/
structure HafjellRaw where
  top : Option SideRaw
  bottom : Option SideRaw
deriving DecidableEq, Repr

/-- One YR.no timeseries item; `time` is the parsed `item.time` in
milliseconds, details fields may be `undefined`. -/
structure YrItem where
  time : Nat
  airTemperature : JsVal
  symbolCode : JsVal
  windSpeed : JsVal
  windFromDirection : JsVal
deriving DecidableEq, Repr

/-- Raw YR.no payload (`rawData.properties?.timeseries || []` already
applied: a missing list is the empty list). -/
structure YrRaw where
  timeseries : List YrItem
deriving DecidableEq, Repr

/-- Raw lift status: key/status pairs in object-key order. -/
def LiftRaw : Type := List (String × String)

/-- Optimised Homey payload (`createOptimizedHomeyData`). -/
structure OptHomey where
  temp : JsVal
  hum : JsVal
  ts : Nat
deriving DecidableEq, Repr

/-- `createOptimizedHomeyData` from `src/api/cached-data.js`:
presence-checked fields, temperature formatted to one decimal. -/
def createOptimizedHomeyData (now : Nat) (rawData : HomeyRaw) : OptHomey :=
  { temp := if rawData.temperature ≠ JsVal.undef
            then JsVal.str (jsToFixed1 (parseFloat rawData.temperature))
            else JsVal.null,
    hum := if rawData.humidity ≠ JsVal.undef
           then jsMathRound rawData.humidity
           else JsVal.null,
    ts := now }

/-- Optimised Hafjell side. -/
structure OptSide where
  temp : JsVal
  cond : JsVal
  wind : JsVal
  snow : JsVal
  snowDay : JsVal
deriving DecidableEq, Repr

/-- Optimised Hafjell payload. -/
structure OptHafjell where
  top : OptSide
  bottom : OptSide
  ts : Nat
deriving DecidableEq, Repr

/-- `rawData.side?.field` optional chaining. -/
def sideField (s : Option SideRaw) (f : SideRaw → JsVal) : JsVal :=
  match s with
  | some v => f v
  | none => JsVal.undef

/-- `createOptimizedHafjellData` from `src/api/cached-data.js`: every
field goes through a truthiness fallback (`x || null`,
`x || 'Unknown'`). -/
def createOptimizedHafjellData (now : Nat) (rawData : HafjellRaw) : OptHafjell :=
  { top :=
      { temp := jsOr (sideField rawData.top (fun s => s.temperature)) JsVal.null,
        cond := jsOr (sideField rawData.top (fun s => s.condition)) (JsVal.str "Unknown"),
        wind := jsOr (sideField rawData.top (fun s => s.wind)) JsVal.null,
        snow := jsOr (sideField rawData.top (fun s => s.snow)) JsVal.null,
        snowDay := jsOr (sideField rawData.top (fun s => s.snowLastDay)) JsVal.null },
    bottom :=
      { temp := jsOr (sideField rawData.bottom (fun s => s.temperature)) JsVal.null,
        cond := jsOr (sideField rawData.bottom (fun s => s.condition)) (JsVal.str "Unknown"),
        wind := jsOr (sideField rawData.bottom (fun s => s.wind)) JsVal.null,
        snow := jsOr (sideField rawData.bottom (fun s => s.snow)) JsVal.null,
        snowDay := jsOr (sideField rawData.bottom (fun s => s.snowLastDay)) JsVal.null },
    ts := now }

/-- One optimised YR.no forecast item. -/
structure OptYrItem where
  t : Nat
  temp : JsVal
  sym : JsVal
  wind : JsVal
  windDir : JsVal
deriving DecidableEq, Repr

/-- Optimised YR.no payload. -/
structure OptYr where
  fc : List OptYrItem
  ts : Nat
deriving DecidableEq, Repr

/-- `createOptimizedYrData` from `src/api/cached-data.js`: keep the
next 24 hours of the timeseries and round the numeric fields. -/
def createOptimizedYrData (now : Nat) (rawData : YrRaw) : OptYr :=
  let next24h := now + 24 * 60 * 60 * 1000
  let filtered := rawData.timeseries.filter
    (fun item => decide (now ≤ item.time) && decide (item.time ≤ next24h))
  { fc := filtered.map (fun item =>
      { t := item.time,
        temp := jsMathRound item.airTemperature,
        sym := jsOr item.symbolCode (JsVal.str "clearsky_day"),
        wind := jsMathRound (jsOr item.windSpeed (JsVal.num 0)),
        windDir := jsMathRound (jsOr item.windFromDirection (JsVal.num 0)) }),
    ts := now }

/-- Optimised lift payload: each lift mapped to 1 (open) or 0. -/
structure OptLifts where
  lifts : List (String × Nat)
  ts : Nat
deriving DecidableEq, Repr

/-- `createOptimizedLiftData` from `src/api/cached-data.js`. -/
def createOptimizedLiftData (now : Nat) (rawData : LiftRaw) : OptLifts :=
  { lifts := rawData.map (fun p => (p.1, if p.2 = "open" then 1 else 0)),
    ts := now }

/-- One `temp:history` entry: `h`/`t`/`b` are the Homey, Hafjell-top
and Hafjell-bottom temperatures; `none` is the `null` stored for a
falsy input (or the `null` a `NaN` serialises to). -/
structure HistEntry where
  ts : Nat
  h : Option Rat
  t : Option Rat
  b : Option Rat
deriving DecidableEq, Repr

/-- A value stored in the cache under one of the five keys. -/
inductive CacheVal where
  | homey (d : OptHomey)
  | hafjell (d : OptHafjell)
  | yr (d : OptYr)
  | lifts (d : OptLifts)
  | hist (l : List HistEntry)
deriving DecidableEq, Repr

/-- The Redis store of `src/api/cached-data.js`: key to value and
absolute expiry (milliseconds). -/
def CStore : Type := String → Option (CacheVal × Nat)

def emptyCStore : CStore := fun _ => none

/-- `redis.setEx` at time `now`. -/
def csetEx (st : CStore) (key : String) (ttlSeconds now : Nat) (v : CacheVal) : CStore :=
  fun k => if k = key then some (v, now + ttlSeconds * 1000) else st k

/-- `redis.get` at time `now`; expired entries read as absent. -/
def cgetAt (now : Nat) (st : CStore) (key : String) : Option CacheVal :=
  match st key with
  | some (v, expiresAt) => if now < expiresAt then some v else none
  | none => none

def MAX_HISTORY : Nat := 48

/-- The history field construction inside `storeTempHistory`:
`x ? parseFloat(x) : null`. -/
def histField (x : JsVal) : Option Rat :=
  if truthy x then parseFloat x else none

/-- The list part of `storeTempHistory`: push the new entry, and when
the result exceeds `MAX_HISTORY` keep the last `MAX_HISTORY` entries
(`history.slice(-MAX_HISTORY)`). -/
def storeTempHistoryList (history : List HistEntry) (e : HistEntry) : List HistEntry :=
  let pushed := history ++ [e]
  if pushed.length > MAX_HISTORY then pushed.drop (pushed.length - MAX_HISTORY) else pushed

/-- `storeTempHistory` from `src/api/cached-data.js`: read the current
history (absent or expired reads as `[]`), append the new entry,
truncate, write back with a 24 h TTL. -/
def storeTempHistory (now : Nat) (st : CStore)
    (homeyTemp hafjellTopTemp hafjellBottomTemp : JsVal) : CStore :=
  let existing : List HistEntry :=
    match cgetAt now st "temp:history" with
    | some (CacheVal.hist l) => l
    | _ => []
  let historyEntry : HistEntry :=
    { ts := now,
      h := histField homeyTemp,
      t := histField hafjellTopTemp,
      b := histField hafjellBottomTemp }
  csetEx st "temp:history" (24 * 60 * 60) now
    (CacheVal.hist (storeTempHistoryList existing historyEntry))

/-- The four adapters' results: each is `null` (`none`) when the
adapter failed (every adapter in this file catches its own errors and
returns `null`). -/
structure RawResults where
  homey : Option HomeyRaw
  hafjell : Option HafjellRaw
  yr : Option YrRaw
  lifts : Option LiftRaw

def TTL : Nat := 15 * 60

/-- `homeyData?.temp` on the optimised payload. -/
def optHomeyTemp : Option OptHomey → JsVal
  | some d => d.temp
  | none => JsVal.undef

/-- `hafjellData?.top?.temp`. -/
def optHafjellTopTemp : Option OptHafjell → JsVal
  | some d => d.top.temp
  | none => JsVal.undef

/-- `hafjellData?.bottom?.temp`. -/
def optHafjellBottomTemp : Option OptHafjell → JsVal
  | some d => d.bottom.temp
  | none => JsVal.undef

/-- The store phase of the `action=refresh` branch: optimise each
non-null raw result, write each present payload under its source key
with a 15-minute TTL, then append a history point when the Homey or
the Hafjell payload is present. -/
def refreshStorePhase (now : Nat) (raw : RawResults) (st : CStore) : CStore :=
  let homeyData := raw.homey.map (createOptimizedHomeyData now)
  let hafjellData := raw.hafjell.map (createOptimizedHafjellData now)
  let yrData := raw.yr.map (createOptimizedYrData now)
  let liftData := raw.lifts.map (createOptimizedLiftData now)
  let st1 := match homeyData with
    | some d => csetEx st "homey:sensors" TTL now (CacheVal.homey d)
    | none => st
  let st2 := match hafjellData with
    | some d => csetEx st1 "hafjell:weather" TTL now (CacheVal.hafjell d)
    | none => st1
  let st3 := match yrData with
    | some d => csetEx st2 "yr:forecast" TTL now (CacheVal.yr d)
    | none => st2
  let st4 := match liftData with
    | some d => csetEx st3 "hafjell:lifts" TTL now (CacheVal.lifts d)
    | none => st3
  if homeyData.isSome || hafjellData.isSome then
    storeTempHistory now st4 (optHomeyTemp homeyData)
      (optHafjellTopTemp hafjellData) (optHafjellBottomTemp hafjellData)
  else st4

/-- Response of the `action=refresh` branch (observable part: HTTP
status and which source fetchers ran). -/
structure CResp where
  status : Nat
  invoked : List String
deriving DecidableEq, Repr

/-- The `action=refresh` branch of the handler: bearer-token check
first (unconditional 401 on mismatch, before any fetch or write), then
fetch all four sources and run the store phase. -/
def cachedRefreshHandler (cronSecret : String) (authHeader : Option String)
    (now : Nat) (raw : RawResults) (st : CStore) : CResp × CStore :=
  if authHeader ≠ some ("Bearer " ++ cronSecret) then
    ({ status := 401, invoked := [] }, st)
  else
    ({ status := 200, invoked := ["homey", "hafjellWeather", "yr", "hafjellLifts"] },
     refreshStorePhase now raw st)

/-- Response of the `action=get` branch. -/
structure GetAllResp where
  success : Bool
  cached : Bool
  homey : Option CacheVal
  hafjell : Option CacheVal
  forecast : Option CacheVal
  lifts : Option CacheVal
  tempHistory : List HistEntry
  invoked : List String

/-- The `action=get` branch of the handler: read the five keys and
return them; the response is unconditionally tagged `cached: true` and
no source fetcher ever runs on this path. -/
def cachedGetHandler (now : Nat) (st : CStore) : GetAllResp :=
  { success := true,
    cached := true,
    homey := cgetAt now st "homey:sensors",
    hafjell := cgetAt now st "hafjell:weather",
    forecast := cgetAt now st "yr:forecast",
    lifts := cgetAt now st "hafjell:lifts",
    tempHistory :=
      match cgetAt now st "temp:history" with
      | some (CacheVal.hist l) => l
      | _ => [],
    invoked := [] }

end CachedData

namespace ApiRefresh

/-!
Model of the background-refresh handler of `src/api/refresh-data.js`
(the ioredis variant): three source adapters that each catch their own
errors, write their payload to Redis on success, and return a
`SourceResult`; and the handler that checks the bearer token, runs the
three adapters, and maps the settled promises into the summary.
-/

/-- Result of one adapter invocation. -/
structure SourceResult where
  success : Bool
  service : String
  error : Option String
deriving DecidableEq, Repr

/-- Outcome of the YR.no fetch: a parsed JSON body, a non-OK HTTP
status, or a thrown error (network failure, body parse failure, Redis
write failure) with its message. -/
inductive ForecastOutcome where
  | ok (data : Json)
  | notOk (status : Nat)
  | err (msg : String)

/-- `true` exactly on the success outcome. -/
def ForecastOutcome.isOk : ForecastOutcome → Bool
  | .ok _ => true
  | _ => false

/-- The Homey capability values reaching `sensorData`
(`caps.measure_temperature?.value`, `caps.measure_humidity?.value`). -/
structure HomeyCaps where
  measureTemperatureVal : JsVal
  measureHumidityVal : JsVal

/-- Outcome of the Homey library calls: the capability values, or a
thrown error with its message. -/
inductive HomeyOutcome where
  | ok (caps : HomeyCaps)
  | err (msg : String)

def HomeyOutcome.isOk : HomeyOutcome → Bool
  | .ok _ => true
  | _ => false

/-- Outcome of the Hafjell proxy fetch: the proxied page contents, a
non-OK HTTP status, the 10-second abort timeout firing, or another
thrown error. -/
inductive HafjellOutcome where
  | ok (contents : Json)
  | notOk (status : Nat)
  | timeout (msg : String)
  | err (msg : String)

def HafjellOutcome.isOk : HafjellOutcome → Bool
  | .ok _ => true
  | _ => false

def CACHE_TTL : Nat := 300

/-- The cached forecast document
(`{data, timestamp, source: 'yr.no'}`). -/
def forecastCacheData (now : Nat) (data : Json) : Json :=
  Json.obj [("data", data), ("timestamp", Json.num (now : Nat)), ("source", Json.str "yr.no")]

/-- `fetchForecastData` from `src/api/refresh-data.js`: on success the
adapter itself writes `forecast_data` and reports success; every
failure is caught and reported as `success:false` with the captured
message; the function never throws past its boundary. -/
def fetchForecastData (now : Nat) (o : ForecastOutcome) (st : JStore) :
    SourceResult × JStore :=
  match o with
  | .ok data =>
      ({ success := true, service := "forecast", error := none },
       setExJ st "forecast_data" CACHE_TTL now (forecastCacheData now data))
  | .notOk status =>
      ({ success := false, service := "forecast",
         error := some ("Met.no error: " ++ toString status) }, st)
  | .err msg =>
      ({ success := false, service := "forecast", error := some msg }, st)

/-- The cached Homey sensor document: capability values with
`undefined` fields dropped by `JSON.stringify`. -/
def homeySensorData (now : Nat) (caps : HomeyCaps) : Json :=
  Json.obj (jsonField "temperature" caps.measureTemperatureVal ++
            jsonField "humidity" caps.measureHumidityVal ++
            [("timestamp", Json.num (now : Nat))])

/-- `fetchHomeyData` from `src/api/refresh-data.js`: missing
configuration is reported (not thrown) as `Not configured`; on success
the adapter writes `homey_data`; every thrown error is caught and
reported with its message. -/
def fetchHomeyData (now : Nat) (configured : Bool) (o : HomeyOutcome) (st : JStore) :
    SourceResult × JStore :=
  if !configured then
    ({ success := false, service := "homey", error := some "Not configured" }, st)
  else
    match o with
    | .ok caps =>
        ({ success := true, service := "homey", error := none },
         setExJ st "homey_data" CACHE_TTL now (homeySensorData now caps))
    | .err msg =>
        ({ success := false, service := "homey", error := some msg }, st)

/-- The cached Hafjell document (`{html, timestamp}`). -/
def hafjellCacheData (now : Nat) (contents : Json) : Json :=
  Json.obj [("html", contents), ("timestamp", Json.num (now : Nat))]

/-- `fetchHafjellData` from `src/api/refresh-data.js`: the fetch
carries a 10-second abort timeout; on success the adapter writes
`hafjell_html`; non-OK statuses, the timeout and other thrown errors
are caught and reported with their message. -/
def fetchHafjellData (now : Nat) (o : HafjellOutcome) (st : JStore) :
    SourceResult × JStore :=
  match o with
  | .ok contents =>
      ({ success := true, service := "hafjell", error := none },
       setExJ st "hafjell_html" CACHE_TTL now (hafjellCacheData now contents))
  | .notOk status =>
      ({ success := false, service := "hafjell",
         error := some ("Hafjell error: " ++ toString status) }, st)
  | .timeout msg =>
      ({ success := false, service := "hafjell", error := some msg }, st)
  | .err msg =>
      ({ success := false, service := "hafjell", error := some msg }, st)

/-- An outbound HTTP request descriptor: the upstream URL and the
explicit timeout attached to the call, if any. -/
structure FetchReq where
  url : String
  timeoutMs : Option Nat
deriving DecidableEq, Repr

/-- The YR.no request of `fetchForecastData`: a `User-Agent` header
only, no `signal` and no timeout of any kind. -/
def forecastRequest : FetchReq :=
  { url := "https://api.met.no/weatherapi/locationforecast/2.0/compact",
    timeoutMs := none }

/-- The Hafjell request of `fetchHafjellData`:
`signal: AbortSignal.timeout(10000)`. -/
def hafjellRequest : FetchReq :=
  { url := "https://api.allorigins.win/get",
    timeoutMs := some 10000 }

/-- The Homey adapter issues its upstream calls through the
`homey-api` library with no explicit timeout option. -/
def homeyRequestTimeoutMs : Option Nat := none

def serviceNames : List String := ["forecast", "homey", "hafjell"]

/-- One settled promise from `Promise.allSettled`. -/
inductive Settled (α : Type) where
  | fulfilled (v : α)
  | rejected (reason : Option String)

/-- The per-index mapping of the handler's `results.map`: a fulfilled
adapter promise contributes its value, a rejected one a synthesised
failure entry named after the adapter's position. -/
def settledEntry (i : Nat) (r : Settled SourceResult) : SourceResult :=
  match r with
  | .fulfilled v => v
  | .rejected reason =>
      { success := false, service := serviceNames.getD i "", error := reason }

/-- `results.map((r, i) => ...)` over the settled adapter promises. -/
def summaryResults (rs : List (Settled SourceResult)) : List SourceResult :=
  rs.enum.map (fun p => settledEntry p.1 p.2)

/-- The environment the handler reads. -/
structure ApiEnv where
  cronSecret : String
  nodeEnv : String
  homeyConfigured : Bool

/-- The request fields the handler reads. -/
structure ApiReq where
  authorization : Option String
  manual : Bool

/-- The three upstream outcomes of one refresh invocation. -/
structure Outcomes where
  forecast : ForecastOutcome
  homey : HomeyOutcome
  hafjell : HafjellOutcome

/-- Observable handler response: HTTP status, the summary's `results`
list, and which adapters ran. -/
structure RefreshResp where
  status : Nat
  results : List SourceResult
  invoked : List String
deriving DecidableEq, Repr

/-- The refresh body: run the three adapters (none of which can
reject, since each catches its own errors) and build the summary. -/
def refreshRun (now : Nat) (configured : Bool) (oc : Outcomes) (st : JStore) :
    List SourceResult × JStore :=
  let r1 := fetchForecastData now oc.forecast st
  let r2 := fetchHomeyData now configured oc.homey r1.2
  let r3 := fetchHafjellData now oc.hafjell r2.2
  (summaryResults [Settled.fulfilled r1.1, Settled.fulfilled r2.1, Settled.fulfilled r3.1],
   r3.2)

/-- The handler of `src/api/refresh-data.js`: the 401 for a wrong
bearer token is only issued when `NODE_ENV` is `production` and the
`manual` query parameter is absent; otherwise the refresh proceeds. -/
def apiRefreshHandler (env : ApiEnv) (req : ApiReq) (now : Nat) (oc : Outcomes)
    (st : JStore) : RefreshResp × JStore :=
  if req.authorization ≠ some ("Bearer " ++ env.cronSecret)
      ∧ env.nodeEnv = "production" ∧ req.manual = false then
    ({ status := 401, results := [], invoked := [] }, st)
  else
    let run := refreshRun now env.homeyConfigured oc st
    ({ status := 200, results := run.1, invoked := serviceNames }, run.2)

end ApiRefresh

namespace Yrno

/-!
Model of the `getCachedData`/`setCachedData` pair of the YR.no
forecast cache in `src/api/refresh-data.js` (the `yrno_forecast`
variant): `setCachedData` spreads the value and adds a `cachedAt`
write-time field before storing it with TTL `2 * CACHE_DURATION`, and
`getCachedData` re-checks the `cachedAt` age against `CACHE_DURATION`
on read.  The ISO `cachedAt` timestamp is modelled by its millisecond
value as a JSON number.
-/

def CACHE_KEY : String := "yrno_forecast"

def CACHE_DURATION : Nat := 15 * 60

/-- Millisecond value of a stored `cachedAt` JSON number, when it is a
genuine non-negative integer. -/
def ratToTime (q : Rat) : Option Nat :=
  if q.den = 1 ∧ 0 ≤ q.num then some q.num.toNat else none

/-- `setCachedData` from `src/api/refresh-data.js`: store
`{...data, cachedAt: now}` under `yrno_forecast` with a TTL of twice
`CACHE_DURATION`.  A write failure is swallowed; we model the
successful write. -/
def setCachedData (now : Nat) (data : Json) (st : JStore) : JStore :=
  setExJ st CACHE_KEY (CACHE_DURATION * 2) now
    (Json.obj (objSet (jsSpread data) "cachedAt" (Json.num (now : Nat))))

/-- `getCachedData` from `src/api/refresh-data.js` (with
`ignoreExpiry = false`): a missing entry is a miss; a present entry
whose `cachedAt` age exceeds `CACHE_DURATION` seconds is a miss; a
`cachedAt` that does not decode to a time makes the age comparison
false (`NaN > CACHE_DURATION` is false in JS) and the entry is
returned. -/
def getCachedData (now : Nat) (st : JStore) : Option Json :=
  match getJ now st CACHE_KEY with
  | none => none
  | some cached =>
      let ageSec : Option Nat :=
        match objLookup cached "cachedAt" with
        | some (Json.num q) =>
            match ratToTime q with
            | some t => some ((now - t) / 1000)
            | none => none
        | _ => none
      match ageSec with
      | some a => if a > CACHE_DURATION then none else some cached
      | none => some cached

end Yrno

namespace Part002

/-!
Model of the CommonJS cached-data handler (`src/unnamed/part_002`,
`GET ?type=...`): the `all` branch reads the three keys and reports a
per-source `cached` flag object, the single-source branch maps the
type to its key and returns 404 when the key is absent.  Neither
branch invokes any source adapter or refresh.
-/

/-- Observable response: HTTP status, the three `cached` flags of the
`all` branch, and which adapters ran (always none on this path). -/
structure P2Resp where
  status : Nat
  cachedForecast : Bool
  cachedHomey : Bool
  cachedHafjell : Bool
  invoked : List String
deriving DecidableEq, Repr

/-- The type-to-key mapping of the single-source branch. -/
def keyFor (ty : String) : Option String :=
  if ty = "forecast" then some "forecast_data"
  else if ty = "homey" then some "homey_data"
  else if ty = "hafjell" then some "hafjell_html"
  else none

/-- The handler: `all` reads the three keys and reports presence
flags; a single type reads its key and returns 404 on absence, 400 on
an unknown type.  No branch triggers a refresh. -/
def handler (now : Nat) (ty : String) (st : JStore) : P2Resp :=
  if ty = "all" then
    { status := 200,
      cachedForecast := (getJ now st "forecast_data").isSome,
      cachedHomey := (getJ now st "homey_data").isSome,
      cachedHafjell := (getJ now st "hafjell_html").isSome,
      invoked := [] }
  else
    match keyFor ty with
    | none =>
        { status := 400, cachedForecast := false, cachedHomey := false,
          cachedHafjell := false, invoked := [] }
    | some k =>
        match getJ now st k with
        | none =>
            { status := 404, cachedForecast := false, cachedHomey := false,
              cachedHafjell := false, invoked := [] }
        | some _ =>
            { status := 200, cachedForecast := false, cachedHomey := false,
              cachedHafjell := false, invoked := [] }

end Part002

namespace Part003

/-!
Model of `updateHistory` from the per-source Homey cache handler
(`src/unnamed/part_003`): a 12-point history with an extra thinning
rule (`splice(-2, 1)` when the pushed length is neither a multiple of
4 nor within the cap) before truncation.
-/

def MAX_HISTORY_POINTS : Nat := 12

/-- One history point (`{time, temperature, label}`); `time` and
`label` are the formatted timestamp strings, `temperature` is
`parseFloat` of the reading (`none` models `NaN`). -/
structure HistPoint where
  time : String
  temperature : Option Rat
  label : String
deriving DecidableEq, Repr

/-- The point appended for a reading. -/
def newHistPoint (nowIso nowLabel : String) (x : JsVal) : HistPoint :=
  { time := nowIso, temperature := parseFloat x, label := nowLabel }

/-- `updateHistory` from `src/unnamed/part_003`: a `null`/`undefined`
reading leaves the history untouched; otherwise push the new point,
remove the second-to-last element when the pushed length is neither a
multiple of 4 nor within the cap (`splice(-2, 1)`), then truncate to
the last `MAX_HISTORY_POINTS` entries. -/
def updateHistory (nowIso nowLabel : String) (currentHistory : List HistPoint)
    (newTemperature : JsVal) : List HistPoint :=
  if newTemperature = JsVal.null ∨ newTemperature = JsVal.undef then currentHistory
  else
    let updated := currentHistory ++ [newHistPoint nowIso nowLabel newTemperature]
    let shouldKeep := updated.length % 4 = 0 ∨ updated.length ≤ MAX_HISTORY_POINTS
    let updated2 :=
      if ¬shouldKeep ∧ updated.length > 1 then
        updated.take (updated.length - 2) ++ updated.drop (updated.length - 1)
      else updated
    if updated2.length > MAX_HISTORY_POINTS then
      updated2.drop (updated2.length - MAX_HISTORY_POINTS)
    else updated2

end Part003

namespace Cron

/-!
Model of the sensor-data construction in `src/cron/refresh-data.js`
(`fetchHomeyData`, lines around 111-115): both readings go through a
`||` fallback chain, so a falsy capability value falls through to the
legacy capability name. -/

/-- The capability values the cron handler reads
(`tempCaps.measure_temperature?.value`, `tempCaps.temperature?.value`,
and the humidity pair). -/
structure Caps where
  measureTemperatureVal : JsVal
  temperatureVal : JsVal
  measureHumidityVal : JsVal
  humidityVal : JsVal
deriving DecidableEq, Repr

/-- The in-memory sensor document before `JSON.stringify` (a
`JsVal.undef` field is dropped by serialisation). -/
structure SensorData where
  temperature : JsVal
  humidity : JsVal
  ts : Nat
deriving DecidableEq, Repr

/-- The `sensorData` object built by the cron `fetchHomeyData`:
`measure_temperature?.value || temperature?.value` and the analogous
humidity chain. -/
def sensorData (now : Nat) (caps : Caps) : SensorData :=
  { temperature := jsOr caps.measureTemperatureVal caps.temperatureVal,
    humidity := jsOr caps.measureHumidityVal caps.humidityVal,
    ts := now }

end Cron

/-- Raw Hafjell side as scraped from the resort page: the temperature
is the digit string `"0"` (the regex captures strings). -/
def rawZeroSide : CachedData.SideRaw :=
  { temperature := JsVal.str "0", condition := JsVal.str "Sunny",
    wind := JsVal.str "5", snow := JsVal.str "65", snowLastDay := JsVal.str "0" }

/-- Raw Hafjell payload carrying the scraped `"0"` temperature. -/
def rawZeroHafjell : CachedData.HafjellRaw :=
  { top := some rawZeroSide, bottom := some rawZeroSide }

/-- Raw Hafjell side whose temperature is the number 0. -/
def rawNumZeroSide : CachedData.SideRaw :=
  { temperature := JsVal.num 0, condition := JsVal.null,
    wind := JsVal.null, snow := JsVal.null, snowLastDay := JsVal.null }

/-- Raw Hafjell payload carrying the numeric 0 temperature. -/
def rawNumZeroHafjell : CachedData.HafjellRaw :=
  { top := some rawNumZeroSide, bottom := some rawNumZeroSide }

/-- A full 12-point per-source history with pairwise distinct
temperatures 0..11. -/
def histCur12 : List Part003.HistPoint :=
  (List.range 12).map (fun i => { time := "", temperature := some (i : Rat), label := "" })

/-- C1: in a refresh with some sources failing and others succeeding,
every succeeded source's optimised payload is written under its source
key (fresh TTL), and the store at a failed source's key is exactly
what it was before — neither deleted nor overwritten with a failure
marker.  Stated for the `src/api/cached-data.js` store phase (each of
the four keys equals the fresh write when the raw result is present
and the previous entry otherwise), and for the `src/api/refresh-data.js`
forecast adapter (the store after the adapter is the fresh write on the
success outcome and unchanged on every failure outcome). -/
theorem refresh_source_isolation :
    ∀ (now : Nat) (raw : CachedData.RawResults) (st : CachedData.CStore)
      (of : ApiRefresh.ForecastOutcome) (st2 : JStore),
    ((CachedData.refreshStorePhase now raw st) "homey:sensors" =
      match raw.homey with
      | some h => some (CachedData.CacheVal.homey (CachedData.createOptimizedHomeyData now h),
                        now + CachedData.TTL * 1000)
      | none => st "homey:sensors") ∧
    ((CachedData.refreshStorePhase now raw st) "hafjell:weather" =
      match raw.hafjell with
      | some h => some (CachedData.CacheVal.hafjell (CachedData.createOptimizedHafjellData now h),
                        now + CachedData.TTL * 1000)
      | none => st "hafjell:weather") ∧
    ((CachedData.refreshStorePhase now raw st) "yr:forecast" =
      match raw.yr with
      | some h => some (CachedData.CacheVal.yr (CachedData.createOptimizedYrData now h),
                        now + CachedData.TTL * 1000)
      | none => st "yr:forecast") ∧
    ((CachedData.refreshStorePhase now raw st) "hafjell:lifts" =
      match raw.lifts with
      | some h => some (CachedData.CacheVal.lifts (CachedData.createOptimizedLiftData now h),
                        now + CachedData.TTL * 1000)
      | none => st "hafjell:lifts") ∧
    ((ApiRefresh.fetchForecastData now of st2).2 =
      match of with
      | ApiRefresh.ForecastOutcome.ok d =>
          setExJ st2 "forecast_data" ApiRefresh.CACHE_TTL now (ApiRefresh.forecastCacheData now d)
      | _ => st2) := by
  intro now raw st of st2
  obtain ⟨h, ha, y, l⟩ := raw
  cases h <;> cases ha <;> cases y <;> cases l <;> cases of <;>
    exact ⟨rfl, rfl, rfl, rfl, rfl⟩

/-- C2: every refresh invocation produces a summary whose `results`
list has exactly one entry per configured adapter — three entries, in
adapter order `forecast`, `homey`, `hafjell` — each entry carrying its
adapter's success flag, and every failed entry carrying a captured
error message. -/
theorem refresh_summary_results_complete :
    ∀ (now : Nat) (configured : Bool) (oc : ApiRefresh.Outcomes) (st : JStore),
    ((ApiRefresh.refreshRun now configured oc st).1.length = 3) ∧
    ((ApiRefresh.refreshRun now configured oc st).1.map (fun r => r.service) =
      ApiRefresh.serviceNames) ∧
    ((ApiRefresh.refreshRun now configured oc st).1.map (fun r => r.success) =
      [oc.forecast.isOk, configured && oc.homey.isOk, oc.hafjell.isOk]) ∧
    ((ApiRefresh.refreshRun now configured oc st).1.all
      (fun r => r.success || r.error.isSome) = true) := by
  intro now configured oc st
  obtain ⟨of, oh, oha⟩ := oc
  cases of <;> cases oh <;> cases oha <;> cases configured <;>
    exact ⟨rfl, rfl, rfl, rfl⟩

/-- C5: each source adapter of `src/api/refresh-data.js` is a total
function of its upstream outcome (it never throws past its own
boundary); its result reports success exactly on the success outcome,
and on every failure — non-OK HTTP status, thrown network error,
missing configuration, timeout — the result carries a captured
non-null error message. -/
theorem adapter_error_capture :
    ∀ (now : Nat) (st : JStore) (configured : Bool)
      (of : ApiRefresh.ForecastOutcome) (oh : ApiRefresh.HomeyOutcome)
      (oha : ApiRefresh.HafjellOutcome),
    ((ApiRefresh.fetchForecastData now of st).1.success = of.isOk) ∧
    ((ApiRefresh.fetchForecastData now of st).1.error.isSome = !of.isOk) ∧
    ((ApiRefresh.fetchHomeyData now configured oh st).1.success = (configured && oh.isOk)) ∧
    ((ApiRefresh.fetchHomeyData now configured oh st).1.error.isSome
      = !(configured && oh.isOk)) ∧
    ((ApiRefresh.fetchHafjellData now oha st).1.success = oha.isOk) ∧
    ((ApiRefresh.fetchHafjellData now oha st).1.error.isSome = !oha.isOk) := by
  intro now st configured of oh oha
  cases of <;> cases oh <;> cases oha <;> cases configured <;>
    exact ⟨rfl, rfl, rfl, rfl, rfl, rfl⟩

/-- C3 counterexample: an aggregate read (`action=get`) against the
empty cache store is tagged `cached: true` (the claim says
`cached:false`) and triggers no refresh and no adapter invocation at
all (the claim says exactly one synchronous refresh). -/
theorem aggregate_read_counterexample :
    (CachedData.cachedGetHandler 0 CachedData.emptyCStore).cached = true ∧
    (CachedData.cachedGetHandler 0 CachedData.emptyCStore).invoked = [] :=
  ⟨rfl, rfl⟩

/-- C3 (amended): no aggregate read ever triggers a refresh or invokes
a source adapter; `src/api/cached-data.js` tags every aggregate
response `cached: true` (also on an empty store, where all data fields
are null), while the `src/unnamed/part_002` variant reports per-source
presence flags, all false on an empty store. -/
theorem aggregate_read_no_refresh :
    ∀ (now : Nat) (st : CachedData.CStore) (st2 : JStore),
    ((CachedData.cachedGetHandler now st).invoked = []) ∧
    ((CachedData.cachedGetHandler now st).cached = true) ∧
    ((Part002.handler now "all" st2).invoked = []) ∧
    (Part002.handler 0 "all" emptyJStore =
      { status := 200, cachedForecast := false, cachedHomey := false,
        cachedHafjell := false, invoked := [] }) := by
  intro now st st2
  exact ⟨rfl, rfl, rfl, rfl⟩

/-- C9 counterexample: the YR.no forecast fetch of
`src/api/refresh-data.js` is issued with no timeout at all, so not
every upstream call carries a bounded timeout in the 10-25 s range. -/
theorem upstream_timeout_counterexample :
    ApiRefresh.forecastRequest.timeoutMs = none :=
  rfl

/-- C9 (amended): only the Hafjell upstream call carries an explicit
bounded timeout — 10 s, inside the observed 10-25 s range — and when
it fires the adapter returns `success:false` with the captured timeout
error instead of hanging the refresh; the forecast fetch and the Homey
library calls are issued with no explicit timeout. -/
theorem upstream_timeouts :
    ∀ (now : Nat) (m : String) (st : JStore),
    (ApiRefresh.hafjellRequest.timeoutMs = some 10000) ∧
    (10 * 1000 ≤ 10000 ∧ 10000 ≤ 25 * 1000) ∧
    (ApiRefresh.fetchHafjellData now (ApiRefresh.HafjellOutcome.timeout m) st =
      ({ success := false, service := "hafjell", error := some m }, st)) ∧
    (ApiRefresh.forecastRequest.timeoutMs = none) ∧
    (ApiRefresh.homeyRequestTimeoutMs = none) := by
  intro now m st
  exact ⟨rfl, ⟨by norm_num, by norm_num⟩, rfl, rfl, rfl⟩

/-- C6 counterexample: a refresh request whose Authorization header
does not match the bearer secret is nevertheless served with a full
refresh (HTTP 200, all three adapters invoked) by
`src/api/refresh-data.js` whenever `NODE_ENV` is not `production` —
the 401 is not issued for every unauthorized request. -/
theorem refresh_auth_counterexample :
    ((ApiRefresh.apiRefreshHandler
        { cronSecret := "secret", nodeEnv := "development", homeyConfigured := false }
        { authorization := some "Bearer wrong", manual := false }
        0
        { forecast := ApiRefresh.ForecastOutcome.err "down",
          homey := ApiRefresh.HomeyOutcome.err "down",
          hafjell := ApiRefresh.HafjellOutcome.err "down" }
        emptyJStore).1.status = 200) ∧
    ((ApiRefresh.apiRefreshHandler
        { cronSecret := "secret", nodeEnv := "development", homeyConfigured := false }
        { authorization := some "Bearer wrong", manual := false }
        0
        { forecast := ApiRefresh.ForecastOutcome.err "down",
          homey := ApiRefresh.HomeyOutcome.err "down",
          hafjell := ApiRefresh.HafjellOutcome.err "down" }
        emptyJStore).1.invoked = ApiRefresh.serviceNames) ∧
    (some "Bearer wrong" ≠ some ("Bearer " ++ "secret")) := by
  exact ⟨rfl, rfl, by decide⟩

/-- C6 (amended): the `action=refresh` branch of
`src/api/cached-data.js` rejects every request with a wrong bearer
token unconditionally — 401, no adapter invoked, store untouched —
while `src/api/refresh-data.js` issues that 401 only when `NODE_ENV`
is `production` and the `manual` query parameter is absent. -/
theorem refresh_auth :
    (∀ (env : ApiRefresh.ApiEnv) (req : ApiRefresh.ApiReq) (now : Nat)
       (oc : ApiRefresh.Outcomes) (st : JStore),
       req.authorization ≠ some ("Bearer " ++ env.cronSecret) →
       env.nodeEnv = "production" → req.manual = false →
       ApiRefresh.apiRefreshHandler env req now oc st =
         ({ status := 401, results := [], invoked := [] }, st)) ∧
    (∀ (cronSecret : String) (authHeader : Option String) (now : Nat)
       (raw : CachedData.RawResults) (st : CachedData.CStore),
       authHeader ≠ some ("Bearer " ++ cronSecret) →
       CachedData.cachedRefreshHandler cronSecret authHeader now raw st =
         ({ status := 401, invoked := [] }, st)) := by
  constructor
  · intro env req now oc st h1 h2 h3
    unfold ApiRefresh.apiRefreshHandler
    rw [if_pos ⟨h1, h2, h3⟩]
  · intro cronSecret authHeader now raw st h1
    unfold CachedData.cachedRefreshHandler
    rw [if_pos h1]

/-- C6 witness: the amended theorem applied at a concrete unauthorized
request, once per branch. -/
theorem refresh_auth_witness :
    (ApiRefresh.apiRefreshHandler
        { cronSecret := "secret", nodeEnv := "production", homeyConfigured := false }
        { authorization := some "Bearer wrong", manual := false }
        0
        { forecast := ApiRefresh.ForecastOutcome.err "down",
          homey := ApiRefresh.HomeyOutcome.err "down",
          hafjell := ApiRefresh.HafjellOutcome.err "down" }
        emptyJStore =
      ({ status := 401, results := [], invoked := [] }, emptyJStore)) ∧
    (CachedData.cachedRefreshHandler "secret" (some "Bearer wrong") 0
        { homey := none, hafjell := none, yr := none, lifts := none }
        CachedData.emptyCStore =
      ({ status := 401, invoked := [] }, CachedData.emptyCStore)) := by
  exact ⟨refresh_auth.1 _ _ _ _ _ (by decide) rfl rfl,
         refresh_auth.2 _ _ _ _ _ (by decide)⟩

/-- C7: a single-source read (`type=forecast|homey|hafjell`) whose
cache key is absent returns 404 and invokes no adapter and no
refresh. -/
theorem single_source_missing_404 :
    ∀ (now : Nat) (st : JStore) (ty k : String),
    Part002.keyFor ty = some k → getJ now st k = none →
    Part002.handler now ty st =
      { status := 404, cachedForecast := false, cachedHomey := false,
        cachedHafjell := false, invoked := [] } := by
  intro now st ty k hk hg
  have hne : ¬ ty = "all" := by
    intro h
    subst h
    rw [show Part002.keyFor "all" = none from rfl] at hk
    exact Option.noConfusion hk
  unfold Part002.handler
  rw [if_neg hne, hk]
  dsimp only
  rw [hg]

/-- C7 witness: reading `type=homey` against the empty store. -/
theorem single_source_missing_404_witness :
    Part002.handler 0 "homey" emptyJStore =
      { status := 404, cachedForecast := false, cachedHomey := false,
        cachedHafjell := false, invoked := [] } :=
  single_source_missing_404 0 emptyJStore "homey" "homey_data" rfl rfl



/-- C10 counterexample: the string `"0"` scraped from the resort page
is a truthy JS value, so `createOptimizedHafjellData` keeps it (it is
not replaced by null in the optimised cache entry), and
`storeTempHistory`'s field construction parses it to the number 0 (it
is not dropped from the history point) — contradicting the claim that
a `"0"` reading is stored indistinguishably from a missing reading. -/
theorem zero_temperature_counterexample :
    ((CachedData.createOptimizedHafjellData 0 rawZeroHafjell).top.temp = JsVal.str "0") ∧
    (JsVal.str "0" ≠ JsVal.null) ∧
    (CachedData.histField (JsVal.str "0") = some 0) := by
  exact ⟨rfl, by decide, by with_unfolding_all rfl⟩

/-- C10 (amended): a temperature reading that is the *number* 0 is
indeed lost to the truthiness tests — the cron `fetchHomeyData` `||`
chain drops it to the (undefined) fallback, `createOptimizedHafjellData`
replaces it by null, and `storeTempHistory` stores null for it — but
the *string* `"0"` scraped from the resort page is truthy and is
preserved: it stays `"0"` in the optimised cache entry and is parsed
to the number 0 in the appended history point. -/
theorem zero_temperature_truthiness :
    ∀ (now : Nat) (mh hv : JsVal)
      (raw1 : CachedData.HafjellRaw) (s1 : CachedData.SideRaw)
      (raw2 : CachedData.HafjellRaw) (s2 : CachedData.SideRaw),
    ((Cron.sensorData now
        { measureTemperatureVal := JsVal.num 0, temperatureVal := JsVal.undef,
          measureHumidityVal := mh, humidityVal := hv }).temperature = JsVal.undef) ∧
    (raw1.top = some s1 → s1.temperature = JsVal.num 0 →
      (CachedData.createOptimizedHafjellData now raw1).top.temp = JsVal.null) ∧
    (CachedData.histField (JsVal.num 0) = none) ∧
    (CachedData.histField (JsVal.str "0") = some 0) ∧
    (raw2.top = some s2 → s2.temperature = JsVal.str "0" →
      (CachedData.createOptimizedHafjellData now raw2).top.temp = JsVal.str "0") := by
  intro now mh hv raw1 s1 raw2 s2
  refine ⟨?_, ?_, ?_, ?_, ?_⟩
  · with_unfolding_all rfl
  · intro h1 h2
    unfold CachedData.createOptimizedHafjellData
    dsimp only
    rw [h1]
    unfold CachedData.sideField
    dsimp only
    rw [h2]
    with_unfolding_all rfl
  · with_unfolding_all rfl
  · with_unfolding_all rfl
  · intro h1 h2
    unfold CachedData.createOptimizedHafjellData
    dsimp only
    rw [h1]
    unfold CachedData.sideField
    dsimp only
    rw [h2]
    with_unfolding_all rfl



/-- C10 witness: the amended theorem at concrete payloads — a numeric
0 behind the cron fallback chain, a numeric-0 Hafjell side, and the
scraped string `"0"` side. -/
theorem zero_temperature_truthiness_witness :
    ((Cron.sensorData 0
        { measureTemperatureVal := JsVal.num 0, temperatureVal := JsVal.undef,
          measureHumidityVal := JsVal.null, humidityVal := JsVal.null }).temperature
      = JsVal.undef) ∧
    ((CachedData.createOptimizedHafjellData 0 rawNumZeroHafjell).top.temp = JsVal.null) ∧
    (CachedData.histField (JsVal.num 0) = none) ∧
    (CachedData.histField (JsVal.str "0") = some 0) ∧
    ((CachedData.createOptimizedHafjellData 0 rawZeroHafjell).top.temp = JsVal.str "0") := by
  obtain ⟨a, b, c, d, e⟩ :=
    zero_temperature_truthiness 0 JsVal.null JsVal.null
      rawNumZeroHafjell rawNumZeroSide rawZeroHafjell rawZeroSide
  exact ⟨a, b rfl rfl, c, d, e rfl rfl⟩

/-- The temp:history append never exceeds the 48-entry cap. -/
theorem storeTempHistoryList_length_le (history : List CachedData.HistEntry)
    (e : CachedData.HistEntry) :
    (CachedData.storeTempHistoryList history e).length ≤ CachedData.MAX_HISTORY := by
  unfold CachedData.storeTempHistoryList
  dsimp only
  split_ifs with h
  · rw [List.length_drop]
    omega
  · omega

/-- Appending to a full 48-entry temp:history drops exactly the oldest
entry. -/
theorem storeTempHistoryList_full (history : List CachedData.HistEntry)
    (e : CachedData.HistEntry) (hl : history.length = CachedData.MAX_HISTORY) :
    CachedData.storeTempHistoryList history e = history.drop 1 ++ [e] := by
  have hM : CachedData.MAX_HISTORY = 48 := rfl
  rw [hM] at hl
  unfold CachedData.storeTempHistoryList
  dsimp only
  rw [hM]
  have hlen : (history ++ [e]).length = 49 := by simp [hl]
  rw [hlen]
  rw [if_pos (by norm_num)]
  rw [show (49 : Nat) - 48 = 1 from rfl]
  rw [List.drop_append_eq_append_drop, hl]
  norm_num

/-- The per-source history append never exceeds the 12-point cap. -/
theorem updateHistory_length_le (nowIso nowLabel : String)
    (cur : List Part003.HistPoint) (x : JsVal)
    (hx1 : x ≠ JsVal.null) (hx2 : x ≠ JsVal.undef) :
    (Part003.updateHistory nowIso nowLabel cur x).length ≤ Part003.MAX_HISTORY_POINTS := by
  unfold Part003.updateHistory
  rw [if_neg (not_or.mpr ⟨hx1, hx2⟩)]
  dsimp only
  split_ifs with h1 h2 h3 <;>
    simp only [List.length_append, List.length_take, List.length_drop,
      List.length_cons, List.length_nil] at * <;>
    omega

/-- Appending to a full 12-point per-source history drops the
second-to-last element (`splice(-2, 1)`), keeping the oldest. -/
theorem updateHistory_full (nowIso nowLabel : String)
    (cur : List Part003.HistPoint) (x : JsVal)
    (hx1 : x ≠ JsVal.null) (hx2 : x ≠ JsVal.undef)
    (hl : cur.length = Part003.MAX_HISTORY_POINTS) :
    Part003.updateHistory nowIso nowLabel cur x =
      cur.take 11 ++ [Part003.newHistPoint nowIso nowLabel x] := by
  have hM : Part003.MAX_HISTORY_POINTS = 12 := rfl
  rw [hM] at hl
  unfold Part003.updateHistory
  rw [if_neg (not_or.mpr ⟨hx1, hx2⟩)]
  dsimp only
  rw [hM]
  have hlen : (cur ++ [Part003.newHistPoint nowIso nowLabel x]).length = 13 := by
    simp [hl]
  rw [hlen]
  have htake : (cur ++ [Part003.newHistPoint nowIso nowLabel x]).take (13 - 2) = cur.take 11 := by
    rw [show (13 : Nat) - 2 = 11 from rfl, List.take_append_eq_append_take, hl]
    norm_num
  have hdrop : (cur ++ [Part003.newHistPoint nowIso nowLabel x]).drop (13 - 1) =
      [Part003.newHistPoint nowIso nowLabel x] := by
    rw [show (13 : Nat) - 1 = 12 from rfl, List.drop_append_eq_append_drop, hl]
    have hnil : cur.drop 12 = [] := by
      rw [← hl]
      exact List.drop_length cur
    rw [hnil]
    norm_num
  have hc1 : ¬((13 : Nat) % 4 = 0 ∨ (13 : Nat) ≤ 12) ∧ (13 : Nat) > 1 := by norm_num
  rw [if_pos hc1]
  rw [htake, hdrop]
  have hlen2 : (cur.take 11 ++ [Part003.newHistPoint nowIso nowLabel x]).length = 12 := by
    simp only [List.length_append, List.length_take, List.length_cons, List.length_nil, hl]
    omega
  rw [if_neg (by rw [hlen2]; norm_num)]

/-- C4 (amended): both history appenders keep the stored history within
their cap (48 for `temp:history`, 12 for the per-source variant).
Appending to a full 48-entry `temp:history` drops exactly the oldest
entry (FIFO).  Appending to a full 12-point per-source history instead
drops the second-to-last element — the most recent old point — via the
`splice(-2, 1)` thinning rule, keeping the oldest. -/
theorem append_history_bounds :
    ∀ (history : List CachedData.HistEntry) (e : CachedData.HistEntry)
      (nowIso nowLabel : String) (cur : List Part003.HistPoint) (x : JsVal),
    ((CachedData.storeTempHistoryList history e).length ≤ CachedData.MAX_HISTORY) ∧
    (history.length = CachedData.MAX_HISTORY →
      CachedData.storeTempHistoryList history e = history.drop 1 ++ [e]) ∧
    (x ≠ JsVal.null → x ≠ JsVal.undef →
      (Part003.updateHistory nowIso nowLabel cur x).length ≤ Part003.MAX_HISTORY_POINTS) ∧
    (x ≠ JsVal.null → x ≠ JsVal.undef → cur.length = Part003.MAX_HISTORY_POINTS →
      Part003.updateHistory nowIso nowLabel cur x =
        cur.take 11 ++ [Part003.newHistPoint nowIso nowLabel x]) := by
  intro history e nowIso nowLabel cur x
  exact ⟨storeTempHistoryList_length_le history e,
         storeTempHistoryList_full history e,
         updateHistory_length_le nowIso nowLabel cur x,
         fun hx1 hx2 hl => updateHistory_full nowIso nowLabel cur x hx1 hx2 hl⟩


/-- C4 counterexample: appending to a full 12-point per-source history
does not drop the oldest entry — the result differs from
`old.drop 1 ++ [new]` (it is `old.take 11 ++ [new]`: the second-newest
old point is what gets dropped). -/
theorem append_history_counterexample :
    Part003.updateHistory "t" "l" histCur12 (JsVal.num 99) ≠
      histCur12.drop 1 ++ [Part003.newHistPoint "t" "l" (JsVal.num 99)] := by
  with_unfolding_all decide

/-- C4 witness: the amended theorem at a concrete full 48-entry
temp:history and a concrete full 12-point per-source history. -/
theorem append_history_bounds_witness :
    ((CachedData.storeTempHistoryList
        (List.replicate 48 { ts := 0, h := none, t := none, b := none })
        { ts := 1, h := some 5, t := none, b := none }).length ≤ CachedData.MAX_HISTORY) ∧
    (CachedData.storeTempHistoryList
        (List.replicate 48 { ts := 0, h := none, t := none, b := none })
        { ts := 1, h := some 5, t := none, b := none } =
      (List.replicate 48 { ts := 0, h := none, t := none, b := none } :
        List CachedData.HistEntry).drop 1 ++ [{ ts := 1, h := some 5, t := none, b := none }]) ∧
    ((Part003.updateHistory "t" "l" histCur12 (JsVal.num 99)).length ≤
      Part003.MAX_HISTORY_POINTS) ∧
    (Part003.updateHistory "t" "l" histCur12 (JsVal.num 99) =
      histCur12.take 11 ++ [Part003.newHistPoint "t" "l" (JsVal.num 99)]) := by
  obtain ⟨a, b, c, d⟩ :=
    append_history_bounds
      (List.replicate 48 { ts := 0, h := none, t := none, b := none })
      { ts := 1, h := some 5, t := none, b := none } "t" "l" histCur12 (JsVal.num 99)
  exact ⟨a, b rfl, c (by decide) (by decide), d (by decide) (by decide) rfl⟩

/-- Spreading an object without the key and assigning the key appends
the field. -/
theorem objSet_append (fs : List (String × Json)) (k : String) (v : Json)
    (h : fs.all (fun p => p.1 != k) = true) :
    objSet fs k v = fs ++ [(k, v)] := by
  unfold objSet
  have h2 : fs.any (fun p => p.1 == k) = false := by
    rw [List.any_eq_false]
    intro p hp
    simpa using List.all_eq_true.mp h p hp
  rw [h2]
  simp

/-- Looking up the key appended behind fields that all avoid it finds
the appended value. -/
theorem objLookup_append (fs : List (String × Json)) (k : String) (v : Json)
    (h : fs.all (fun p => p.1 != k) = true) :
    objLookup (Json.obj (fs ++ [(k, v)])) k = some v := by
  unfold objLookup
  dsimp only
  rw [List.find?_append]
  have h1 : fs.find? (fun p => p.1 == k) = none := by
    rw [List.find?_eq_none]
    intro p hp
    simpa using List.all_eq_true.mp h p hp
  rw [h1]
  simp [List.find?]

/-- Decoding the stored write time succeeds. -/
theorem ratToTime_natCast (n : Nat) : Yrno.ratToTime ((n : Nat) : Rat) = some n := by
  unfold Yrno.ratToTime
  rw [Rat.den_natCast, Rat.num_natCast]
  rw [if_pos ⟨rfl, Int.natCast_nonneg n⟩]
  rw [Int.toNat_natCast]

/-- C8 (amended): a value written through `setCachedData` and read
back through `getCachedData` within `CACHE_DURATION` (15 minutes — the
reader-side freshness window, half the stored TTL) comes back as the
original object with exactly one additional field: `cachedAt`,
recording the write time.  Every original field (no field being named
`cachedAt`) is preserved unchanged and in order; the read-back value
is not structurally equal to the original. -/
theorem cache_roundtrip_cachedAt :
    ∀ (t1 t2 : Nat) (fs : List (String × Json)) (st : JStore),
    t1 ≤ t2 → t2 - t1 ≤ Yrno.CACHE_DURATION * 1000 →
    fs.all (fun p => p.1 != "cachedAt") = true →
    Yrno.getCachedData t2 (Yrno.setCachedData t1 (Json.obj fs) st) =
      some (Json.obj (fs ++ [("cachedAt", Json.num (t1 : Nat))])) := by
  intro t1 t2 fs st h1 h2 h3
  have hD : Yrno.CACHE_DURATION = 900 := rfl
  unfold Yrno.setCachedData Yrno.getCachedData
  rw [show jsSpread (Json.obj fs) = fs from rfl]
  rw [objSet_append fs _ _ h3]
  have hget : getJ t2
      (setExJ st Yrno.CACHE_KEY (Yrno.CACHE_DURATION * 2) t1
        (Json.obj (fs ++ [("cachedAt", Json.num (t1 : Nat))]))) Yrno.CACHE_KEY =
      some (Json.obj (fs ++ [("cachedAt", Json.num (t1 : Nat))])) := by
    unfold getJ setExJ
    rw [if_pos rfl]
    dsimp only
    rw [if_pos (by rw [hD] at h2 ⊢; omega)]
  rw [hget]
  dsimp only
  rw [objLookup_append fs _ _ h3]
  dsimp only
  rw [ratToTime_natCast t1]
  dsimp only
  have h4 : (t2 - t1) / 1000 ≤ Yrno.CACHE_DURATION := by
    rw [hD] at h2 ⊢
    omega
  rw [if_neg (by omega)]

/-- C8 witness: writing `{a: 1}` at time 0 and reading it back at
time 0. -/
theorem cache_roundtrip_cachedAt_witness :
    Yrno.getCachedData 0 (Yrno.setCachedData 0 (Json.obj [("a", Json.num 1)]) emptyJStore) =
      some (Json.obj ([("a", Json.num 1)] ++ [("cachedAt", Json.num ((0 : Nat) : Nat))])) :=
  cache_roundtrip_cachedAt 0 0 [("a", Json.num 1)] emptyJStore
    (Nat.le_refl 0) (by norm_num) (by decide)

/-- C8 counterexample: the value read back is not structurally equal
to the value written — `get` after `set {a: 1}` returns
`{a: 1, cachedAt: 0}`, which differs from `{a: 1}`. -/
theorem cache_roundtrip_counterexample :
    Yrno.getCachedData 0 (Yrno.setCachedData 0 (Json.obj [("a", Json.num 1)]) emptyJStore) ≠
      some (Json.obj [("a", Json.num 1)]) := by
  have he : Yrno.getCachedData 0
      (Yrno.setCachedData 0 (Json.obj [("a", Json.num 1)]) emptyJStore) =
      some (Json.obj [("a", Json.num 1), ("cachedAt", Json.num 0)]) := by
    with_unfolding_all rfl
  rw [he]
  intro hc
  simp only [Option.some.injEq, Json.obj.injEq, List.cons.injEq] at hc
  exact List.noConfusion hc.2
